import Mathlib

/-!
Shallow embedding of `main.py` of pentair-control-web: a FastAPI front end
that validates HTTP request fields and forwards them as register writes to a
Pentair pool pump driver.  Device writes are modelled as an explicit trace;
the device itself is a key-value register store plus program slots.  Python
exception flow is modelled with `Except`: FastAPI `HTTPException` values and
`IndexError` both inherit from `Exception`, so every handler's trailing
`except Exception` clause catches them and re-raises a 500.
-/

namespace Pentair

/-- Python values that flow to the driver: ints, bools, `[int]` lists. -/
inductive PyVal where
  | int : Int → PyVal
  | bool : Bool → PyVal
  | list : List Int → PyVal
deriving DecidableEq, Repr

/-- Python exceptions raised inside a handler body: `fastapi.HTTPException`
(carrying status code and detail), `IndexError` from list indexing, and
`TypeError` from an ill-typed arithmetic operand. -/
inductive PExc where
  | http : Nat → String → PExc
  | indexError : PExc
  | typeError : PExc
deriving DecidableEq, Repr

/-- One attribute/register write sent to the pump driver, e.g.
`pump.trpm = 450` becomes `⟨"trpm", .int 450⟩`. -/
structure Write where
  field : String
  val : PyVal
deriving DecidableEq, Repr

/-- One write to a program slot: `pump.program(i).rpm = v` and friends. -/
structure ProgWrite where
  program_id : Int
  field : String
  val : PyVal
deriving DecidableEq, Repr

/-- A device-resident program slot as read/written through the driver. -/
structure ProgramSlot where
  rpm : Int
  mode : Int
  schedule_start : List Int
  schedule_end : List Int
  egg_timer : List Int
deriving DecidableEq, Repr

/-- Device state visible to the handlers: the status dictionary returned by
`pump.status` (optional keys, matching `status.get(k, default)`), the
`pump.mode` value gating `/program`, the flat register store behind the
other pump attributes (keyed by attribute/setting name), the 8 program
slots, and the clock tuple `pump.dt`. -/
structure Device where
  statusRun : Option Int
  statusRpm : Option Int
  statusWatts : Option Int
  statusMode : Option Int
  statusTime : Option (List Int)
  pumpMode : Int
  settings : String → PyVal
  programs : Int → ProgramSlot
  dt : List Int

/-- An HTTP outcome: status code plus detail/body marker. -/
structure HttpResult where
  status : Nat
  detail : String
deriving DecidableEq, Repr

/-- Python list indexing `l[i]`: supports negative indices, raises
`IndexError` out of range. -/
def pyIndex {α : Type} (l : List α) (i : Int) : Except PExc α :=
  let j : Int := if i < 0 then i + l.length else i
  if j < 0 then .error .indexError
  else
    match l.get? j.toNat with
    | some a => .ok a
    | none => .error .indexError

/-- Python `str(e)` for the exceptions we model, used by the
`except Exception as e: raise HTTPException(500, str(e))` wrappers. -/
def excStr : PExc → String
  | .http code detail => toString code ++ ": " ++ detail
  | .indexError => "list index out of range"
  | .typeError => "unsupported operand type"

/-- Request body of `POST /control` (pydantic `PumpControl`): every field
optional, absent fields are `None`. -/
structure PumpControl where
  state : Option Bool := none
  speed : Option Int := none
  ramp : Option Int := none
  celsius : Option Bool := none
  fahrenheit : Option Bool := none
  contrast : Option Int := none
  address : Option Int := none
  id : Option Int := none
  ampm : Option Bool := none
  max_rpm : Option Int := none
  min_rpm : Option Int := none
  quick_rpm : Option Int := none
  quick_timer : Option (List Int) := none
  prime_enable : Option Bool := none
  prime_max_time : Option Int := none
  prime_sensitivity : Option Int := none
  prime_delay : Option Int := none
  antifreeze_enable : Option Bool := none
  antifreeze_rpm : Option Int := none
  antifreeze_temp : Option Int := none
  svrs_restart_enable : Option Bool := none
  svrs_restart_timer : Option Int := none
  time_out_timer : Option (List Int) := none
  running_program : Option Int := none
  selected_program : Option Int := none

/-- Request body of `POST /program` (pydantic `ProgramControl`). -/
structure ProgramControl where
  program_id : Int
  rpm : Option Int := none
  mode : Option String := none
  schedule_start : Option (List Int) := none
  schedule_end : Option (List Int) := none
  egg_timer : Option (List Int) := none

/-- One `if control.<f> is not None: if lo <= v <= hi: write else raise
HTTPException(400, msg)` block of `control_pump`. -/
def range_act (v? : Option Int) (lo hi : Int) (field msg : String) :
    Except PExc (List Write) :=
  match v? with
  | none => .ok []
  | some v =>
    if lo ≤ v ∧ v ≤ hi then .ok [⟨field, .int v⟩]
    else .error (.http 400 msg)

/-- One unconditional boolean pass-through block of `control_pump`. -/
def bool_act (v? : Option Bool) (field : String) : Except PExc (List Write) :=
  match v? with
  | none => .ok []
  | some v => .ok [⟨field, .bool v⟩]

/-- The chained comparison `0 <= l[0] <= 9 and 0 <= l[1] <= 59` with Python
evaluation order: `l[0]` is always evaluated (possible `IndexError`), `l[1]`
only when the first conjunct holds. -/
def hm_cond (l : List Int) : Except PExc Bool := do
  let h ← pyIndex l 0
  if 0 ≤ h ∧ h ≤ 9 then do
    let m ← pyIndex l 1
    pure (decide (0 ≤ m ∧ m ≤ 59))
  else
    pure false

/-- One `[hours, minutes]` timer block of `control_pump` (`quick_timer`,
`time_out_timer`): no length check, indexes `l[0]` and `l[1]` directly. -/
def timer_act (v? : Option (List Int)) (field msg : String) :
    Except PExc (List Write) :=
  match v? with
  | none => .ok []
  | some l =>
    match hm_cond l with
    | .error e => .error e
    | .ok true => .ok [⟨field, .list l⟩]
    | .ok false => .error (.http 400 msg)

def state_act (c : PumpControl) : Except PExc (List Write) :=
  match c.state with
  | none => .ok []
  | some v => .ok [⟨"run", .int (if v then 0x0A else 0x04)⟩]

def speed_act (c : PumpControl) : Except PExc (List Write) :=
  range_act c.speed 450 3450 "trpm" "Speed must be between 450 and 3450 RPM"

def ramp_act (c : PumpControl) : Except PExc (List Write) :=
  range_act c.ramp 100 200 "ramp" "Ramp must be between 100 and 200"

def celsius_act (c : PumpControl) : Except PExc (List Write) :=
  bool_act c.celsius "celsius"

def fahrenheit_act (c : PumpControl) : Except PExc (List Write) :=
  bool_act c.fahrenheit "fahrenheit"

def contrast_act (c : PumpControl) : Except PExc (List Write) :=
  range_act c.contrast 1 3 "contrast" "Contrast must be between 1 and 3"

def address_act (c : PumpControl) : Except PExc (List Write) :=
  range_act c.address 96 97 "address" "Address must be between 96 and 97"

def id_act (c : PumpControl) : Except PExc (List Write) :=
  range_act c.id 1 2 "id" "ID must be between 1 and 2"

def ampm_act (c : PumpControl) : Except PExc (List Write) :=
  bool_act c.ampm "ampm"

def max_rpm_act (c : PumpControl) : Except PExc (List Write) :=
  range_act c.max_rpm 3445 3450 "max_rpm" "Max RPM must be between 3445 and 3450"

def min_rpm_act (c : PumpControl) : Except PExc (List Write) :=
  range_act c.min_rpm 1100 1105 "min_rpm" "Min RPM must be between 1100 and 1105"

def quick_rpm_act (c : PumpControl) : Except PExc (List Write) :=
  range_act c.quick_rpm 2000 3000 "quick_rpm" "Quick RPM must be between 2000 and 3000"

def quick_timer_act (c : PumpControl) : Except PExc (List Write) :=
  timer_act c.quick_timer "quick_timer" "Quick timer hours 0-9, minutes 0-59"

def prime_enable_act (c : PumpControl) : Except PExc (List Write) :=
  bool_act c.prime_enable "prime_enable"

def prime_max_time_act (c : PumpControl) : Except PExc (List Write) :=
  range_act c.prime_max_time 1 30 "prime_max_time" "Prime max time must be between 1 and 30"

def prime_sensitivity_act (c : PumpControl) : Except PExc (List Write) :=
  range_act c.prime_sensitivity 1 100 "prime_sensitivity" "Prime sensitivity must be between 1 and 100"

def prime_delay_act (c : PumpControl) : Except PExc (List Write) :=
  range_act c.prime_delay 1 600 "prime_delay" "Prime delay must be between 1 and 600"

def antifreeze_enable_act (c : PumpControl) : Except PExc (List Write) :=
  bool_act c.antifreeze_enable "antifreeze_enable"

def antifreeze_rpm_act (c : PumpControl) : Except PExc (List Write) :=
  range_act c.antifreeze_rpm 1100 3000 "antifreeze_rpm" "Antifreeze RPM must be between 1100 and 3000"

def antifreeze_temp_act (c : PumpControl) : Except PExc (List Write) :=
  range_act c.antifreeze_temp 40 50 "antifreeze_temp" "Antifreeze temp must be between 40 and 50"

def svrs_restart_enable_act (c : PumpControl) : Except PExc (List Write) :=
  bool_act c.svrs_restart_enable "svrs_restart_enable"

def svrs_restart_timer_act (c : PumpControl) : Except PExc (List Write) :=
  range_act c.svrs_restart_timer 30 300 "svrs_restart_timer" "SVRS restart timer must be between 30 and 300"

def time_out_timer_act (c : PumpControl) : Except PExc (List Write) :=
  timer_act c.time_out_timer "time_out_timer" "Time out timer hours 0-9, minutes 0-59"

/-- The `running_program` block issues
`pump.set(SETTING["RUNNING_PROGRAM"], control.running_program * 8)`:
note the stored value is the index times 8. -/
def running_program_act (c : PumpControl) : Except PExc (List Write) :=
  match c.running_program with
  | none => .ok []
  | some v =>
    if 1 ≤ v ∧ v ≤ 4 then .ok [⟨"RUNNING_PROGRAM", .int (v * 8)⟩]
    else .error (.http 400 "Running program must be between 1 and 4")

/-- The `selected_program` block: the guard accepts 1..8 but the error
message text in the source says "between 1 and 4". -/
def selected_program_act (c : PumpControl) : Except PExc (List Write) :=
  match c.selected_program with
  | none => .ok []
  | some v =>
    if 1 ≤ v ∧ v ≤ 8 then .ok [⟨"selected_program", .int v⟩]
    else .error (.http 400 "Selected program must be between 1 and 4")

/-- Run a sequence of field-handling blocks in order, accumulating the
write trace; the first raised exception aborts the remaining blocks while
keeping the writes already issued (Python exception propagation). -/
def runActs {γ ω : Type} (c : γ) :
    List (γ → Except PExc (List ω)) → List ω × Option PExc
  | [] => ([], none)
  | a :: rest =>
    match a c with
    | .error e => ([], some e)
    | .ok ws =>
      match runActs c rest with
      | (ws2, e2) => (ws ++ ws2, e2)

/-- The field blocks of `control_pump`, in source order. -/
def control_actions : List (PumpControl → Except PExc (List Write)) :=
  [state_act, speed_act, ramp_act, celsius_act, fahrenheit_act,
   contrast_act, address_act, id_act, ampm_act, max_rpm_act, min_rpm_act,
   quick_rpm_act, quick_timer_act, prime_enable_act, prime_max_time_act,
   prime_sensitivity_act, prime_delay_act, antifreeze_enable_act,
   antifreeze_rpm_act, antifreeze_temp_act, svrs_restart_enable_act,
   svrs_restart_timer_act, time_out_timer_act, running_program_act,
   selected_program_act]

/-- Body of `POST /control`: the write trace issued and the exception (if
any) escaping the `try` block. -/
def control_pump_run (c : PumpControl) : List Write × Option PExc :=
  runActs c control_actions

/-- Full `POST /control` endpoint.  On success `{"status": "success"}`
(HTTP 200); any exception — `HTTPException(400, ...)` included, since it
inherits from `Exception` — is caught by `except Exception as e` and
re-raised as `HTTPException(500, str(e))`. -/
def control_pump (c : PumpControl) : HttpResult × List Write :=
  match control_pump_run c with
  | (ws, none) => (⟨200, "success"⟩, ws)
  | (ws, some e) => (⟨500, excStr e⟩, ws)

/-- The dictionary `MANUAL: 0, EGG_TIMER: 1, SCHEDULE: 2, DISABLED: 3` used
by `control_program` to encode a program mode for the device. -/
def mode_map : List (String × Int) :=
  [("MANUAL", 0), ("EGG_TIMER", 1), ("SCHEDULE", 2), ("DISABLED", 3)]

/-- The `if control.mode is not None:` block of `control_program`. -/
def prog_mode_act (c : ProgramControl) : Except PExc (List ProgWrite) :=
  match c.mode with
  | none => .ok []
  | some m =>
    match mode_map.find? (fun p => p.1 == m) with
    | some p => .ok [⟨c.program_id, "mode", .int p.2⟩]
    | none => .error (.http 400 "Mode must be MANUAL, EGG_TIMER, SCHEDULE, or DISABLED")

/-- The `if control.rpm is not None:` block of `control_program`. -/
def prog_rpm_act (c : ProgramControl) : Except PExc (List ProgWrite) :=
  match c.rpm with
  | none => .ok []
  | some v =>
    if 450 ≤ v ∧ v ≤ 3450 then .ok [⟨c.program_id, "rpm", .int v⟩]
    else .error (.http 400 "Program RPM must be between 450 and 3450")

/-- The check `len(l) == 2 and 0 <= l[0] <= 23 and 0 <= l[1] <= 59`: the
length test comes first and `and` short-circuits, so the indexing cannot
raise. -/
def sched_cond (l : List Int) : Bool :=
  match l with
  | [a, b] => decide (0 ≤ a ∧ a ≤ 23 ∧ 0 ≤ b ∧ b ≤ 59)
  | _ => false

/-- The `if control.schedule_start is not None:` block of `control_program`. -/
def prog_schedule_start_act (c : ProgramControl) : Except PExc (List ProgWrite) :=
  match c.schedule_start with
  | none => .ok []
  | some l =>
    if sched_cond l then .ok [⟨c.program_id, "schedule_start", .list l⟩]
    else .error (.http 400 "Schedule start must have hours 0-23, minutes 0-59")

/-- The `if control.schedule_end is not None:` block of `control_program`. -/
def prog_schedule_end_act (c : ProgramControl) : Except PExc (List ProgWrite) :=
  match c.schedule_end with
  | none => .ok []
  | some l =>
    if sched_cond l then .ok [⟨c.program_id, "schedule_end", .list l⟩]
    else .error (.http 400 "Schedule end must have hours 0-23, minutes 0-59")

/-- The `if control.egg_timer is not None:` block of `control_program`. -/
def prog_egg_timer_act (c : ProgramControl) : Except PExc (List ProgWrite) :=
  match c.egg_timer with
  | none => .ok []
  | some l =>
    if sched_cond l then .ok [⟨c.program_id, "egg_timer", .list l⟩]
    else .error (.http 400 "Egg timer must have hours 0-23, minutes 0-59")

/-- The field blocks of `control_program`, in source order (`mode` is
handled before `rpm`). -/
def prog_actions : List (ProgramControl → Except PExc (List ProgWrite)) :=
  [prog_mode_act, prog_rpm_act, prog_schedule_start_act,
   prog_schedule_end_act, prog_egg_timer_act]

/-- Body of `POST /program`: the `program_id` range gate, then the
pump-running gate (`if pump.mode:` — Python truthiness of an int), then the
per-field blocks. -/
def control_program_run (c : ProgramControl) (d : Device) :
    List ProgWrite × Option PExc :=
  if ¬(1 ≤ c.program_id ∧ c.program_id ≤ 8) then
    ([], some (.http 400 "Program ID must be between 1 and 8"))
  else if d.pumpMode ≠ 0 then
    ([], some (.http 400 "Pump is currently running, cannot modify program"))
  else
    runActs c prog_actions

/-- Full `POST /program` endpoint with the same catch-all 500 wrapper as
`/control`. -/
def control_program (c : ProgramControl) (d : Device) :
    HttpResult × List ProgWrite :=
  match control_program_run c d with
  | (ws, none) => (⟨200, "success"⟩, ws)
  | (ws, some e) => (⟨500, excStr e⟩, ws)

/-- Response of `GET /status` (pydantic `StatusResponse`). -/
structure StatusResponse where
  state : Bool
  speed : Int
  watts : Int
  mode : String
  time : List Int
deriving DecidableEq, Repr

/-- Reverse dictionary lookup with a default, as in
`v: k for k, v in tbl.items()` followed by `.get(key, dflt)` (on duplicate
values the last pair wins, matching dict insertion order). -/
def revLookup (tbl : List (String × Int)) (key : Int) (dflt : String) : String :=
  match tbl.reverse.find? (fun p => p.2 == key) with
  | some p => p.1
  | none => dflt

/-- The `GET /status` handler body: `pump.status` dictionary reads with the
source's `.get` defaults; `time` indexes the list twice.  `pumpModes` is
the external `PUMP_MODES` table of the driver library. -/
def get_status (pumpModes : List (String × Int)) (d : Device) :
    Except PExc StatusResponse := do
  let tl := d.statusTime.getD [0, 0]
  let t0 ← pyIndex tl 0
  let t1 ← pyIndex tl 1
  let dfltMode := "UNKNOWN"
  pure { state := d.statusRun.getD 0 == 0x0A
       , speed := d.statusRpm.getD 0
       , watts := d.statusWatts.getD 0
       , mode := revLookup pumpModes (d.statusMode.getD 0) dfltMode
       , time := [t0, t1] }

/-- One program entry of the `GET /config` response. -/
structure ProgramEntry where
  program_id : Int
  rpm : Int
  mode : String
  schedule_start : List Int
  schedule_end : List Int
  egg_timer : List Int
deriving DecidableEq, Repr

/-- The `datetime` sub-object of the `GET /config` response. -/
structure DatetimeEntry where
  hour : Int
  minute : Int
  dow : String
  dom : Int
  month : Int
  year : Int
  dst : Int
deriving DecidableEq, Repr

/-- The `GET /config` response: flat attribute pass-throughs, the
`running_program` field, the datetime and the four program entries. -/
structure ConfigResponse where
  flat : List (String × PyVal)
  running_program : Int
  datetime : DatetimeEntry
  programs : List ProgramEntry
deriving DecidableEq, Repr

/-- The mode-label list of `get_config`:
`["MANUAL", "EGG_TIMER", "SCHEDULE"][program.mode]` — only three labels. -/
def mode_labels : List String := ["MANUAL", "EGG_TIMER", "SCHEDULE"]

/-- One iteration of the programs loop in `get_config`: reads the slot and
looks its mode label up by Python list indexing (raises `IndexError` for
mode values outside -3..2, in particular for `DISABLED` = 3). -/
def configProgram (d : Device) (i : Int) : Except PExc ProgramEntry := do
  let p := d.programs i
  let label ← pyIndex mode_labels p.mode
  pure ⟨i, p.rpm, label, p.schedule_start, p.schedule_end, p.egg_timer⟩

/-- The flat pump attributes read by `get_config`, in source order. -/
def config_attrs : List String :=
  ["ramp", "celsius", "fahrenheit", "contrast", "address", "id", "ampm",
   "max_rpm", "min_rpm", "quick_rpm", "quick_timer", "prime_enable",
   "prime_max_time", "prime_sensitivity", "prime_delay",
   "antifreeze_enable", "antifreeze_rpm", "antifreeze_temp",
   "svrs_restart_enable", "svrs_restart_timer", "time_out_timer"]

/-- The key used by `pump.set(SETTING["RUNNING_PROGRAM"], v)` and
`pump.get(SETTING["RUNNING_PROGRAM"])`. -/
def runningProgramKey : String := "RUNNING_PROGRAM"

/-- Python `//` needs an int (or bool) operand; lists raise `TypeError`. -/
def pyIntOf : PyVal → Except PExc Int
  | .int i => .ok i
  | .bool b => .ok (if b then 1 else 0)
  | .list _ => .error .typeError

/-- The `GET /config` handler body: the programs 1-4 loop runs first, then the
response is assembled; `running_program` is the stored setting floor-divided
by 8; the datetime comes from `pump.dt` with a reverse `WEEKDAYS` lookup
(`weekdays` is the external driver table). -/
def get_config (weekdays : List (String × Int)) (d : Device) :
    Except PExc ConfigResponse := do
  let p1 ← configProgram d 1
  let p2 ← configProgram d 2
  let p3 ← configProgram d 3
  let p4 ← configProgram d 4
  let flat := config_attrs.map (fun a => (a, d.settings a))
  let rpRaw ← pyIntOf (d.settings runningProgramKey)
  let h ← pyIndex d.dt 0
  let m ← pyIndex d.dt 1
  let w ← pyIndex d.dt 2
  let dom ← pyIndex d.dt 3
  let mon ← pyIndex d.dt 4
  let y ← pyIndex d.dt 5
  let dst ← pyIndex d.dt 6
  let dfltDow := "SUNDAY"
  pure { flat := flat
       , running_program := rpRaw.fdiv 8
       , datetime := ⟨h, m, revLookup weekdays w dfltDow, dom, mon, y, dst⟩
       , programs := [p1, p2, p3, p4] }

/-- HTTP status the `GET /config` endpoint responds with: 200 on success,
500 when the handler body raised (caught by `except Exception`). -/
def config_status (weekdays : List (String × Int)) (d : Device) : Nat :=
  match get_config weekdays d with
  | .ok _ => 200
  | .error _ => 500

/-- Apply one driver attribute/setting write to the register store. -/
def applyWrite (d : Device) (w : Write) : Device :=
  { d with settings := fun k => if k = w.field then w.val else d.settings k }

/-- Apply a `/control` write trace in order. -/
def applyWrites (d : Device) (ws : List Write) : Device :=
  ws.foldl applyWrite d

/-- Apply one program-slot attribute write. -/
def updateSlot (s : ProgramSlot) (f : String) (v : PyVal) : ProgramSlot :=
  match f, v with
  | "rpm", .int n => { s with rpm := n }
  | "mode", .int n => { s with mode := n }
  | "schedule_start", .list l => { s with schedule_start := l }
  | "schedule_end", .list l => { s with schedule_end := l }
  | "egg_timer", .list l => { s with egg_timer := l }
  | _, _ => s

/-- Apply one `/program` write to the device. -/
def applyProgWrite (d : Device) (w : ProgWrite) : Device :=
  { d with programs := fun j =>
      if j = w.program_id then updateSlot (d.programs j) w.field w.val
      else d.programs j }

/-- Apply a `/program` write trace in order. -/
def applyProgWrites (d : Device) (ws : List ProgWrite) : Device :=
  ws.foldl applyProgWrite d

/-- A quiescent program slot. -/
def slot0 : ProgramSlot := ⟨450, 0, [0, 0], [0, 0], [0, 0]⟩

/-- A concrete healthy device: pump idle, all program modes `MANUAL`. -/
def device0 : Device :=
  { statusRun := some 0x0A
  , statusRpm := some 2400
  , statusWatts := some 800
  , statusMode := some 0
  , statusTime := some [12, 30]
  , pumpMode := 0
  , settings := fun _ => PyVal.int 0
  , programs := fun _ => slot0
  , dt := [12, 30, 2, 15, 6, 25, 0] }

/-- Device `device0` with the pump running (`pump.mode` truthy). -/
def runningDevice : Device := { device0 with pumpMode := 1 }

/-- Does a block raise on this request? (Spec-side observation.) -/
def actFails {γ ω : Type} (c : γ) (a : γ → Except PExc (List ω)) : Bool :=
  match a c with
  | .error _ => true
  | .ok _ => false

/-- The writes a block issues on this request ([] when it raises). -/
def actWrites {γ ω : Type} (c : γ) (a : γ → Except PExc (List ω)) : List ω :=
  match a c with
  | .ok ws => ws
  | .error _ => []

/-- The exception a block raises on this request, if any. -/
def actExc {γ ω : Type} (c : γ) (a : γ → Except PExc (List ω)) : Option PExc :=
  match a c with
  | .error e => some e
  | .ok _ => none

/-- An `Except` bind that succeeded had a successful first component. -/
theorem bind_ok_ex {α β : Type} {x : Except PExc α} {f : α → Except PExc β}
    {b : β} (h : x >>= f = .ok b) : ∃ a, x = .ok a ∧ f a = .ok b := by
  cases x with
  | ok a => exact ⟨a, rfl, h⟩
  | error e => simp [Bind.bind, Except.bind] at h

/-- Sequential block execution issues exactly the writes of the maximal
failure-free prefix and raises the first failing block's exception. -/
theorem runActs_spec {γ ω : Type} (c : γ)
    (as : List (γ → Except PExc (List ω))) :
    runActs c as =
      (((as.takeWhile (fun a => !actFails c a)).map
          (fun a => actWrites c a)).flatten,
       (as.find? (fun a => actFails c a)).bind (fun a => actExc c a)) := by
  induction as with
  | nil => rfl
  | cons a rest ih =>
    cases h : a c with
    | error e =>
      have hf : actFails c a = true := by simp [actFails, h]
      simp [runActs, h, hf, actExc, List.find?_cons_of_pos]
    | ok ws =>
      have hf : actFails c a = false := by simp [actFails, h]
      have hw : actWrites c a = ws := by simp [actWrites, h]
      simp [runActs, h, hf, hw, ih, List.find?_cons_of_neg]

/-- A program slot whose stored mode is 3 (`DISABLED`) makes the config
mode-label lookup raise `IndexError`. -/
theorem configProgram_mode3 (d : Device) (i : Int)
    (h : (d.programs i).mode = 3) :
    configProgram d i = .error .indexError := by
  simp [configProgram, h, pyIndex, mode_labels]

/-- If any of device programs 1-4 stores mode 3, `GET /config` answers
500. -/
theorem config_500_of_mode3 (weekdays : List (String × Int)) (d : Device)
    (i : Int) (h1 : 1 ≤ i) (h2 : i ≤ 4) (h3 : (d.programs i).mode = 3) :
    config_status weekdays d = 500 := by
  have hi : i = 1 ∨ i = 2 ∨ i = 3 ∨ i = 4 := by omega
  unfold config_status
  cases hall : get_config weekdays d with
  | error e => rfl
  | ok cfg =>
    exfalso
    unfold get_config at hall
    obtain ⟨p1, hp1, hall⟩ := bind_ok_ex hall
    obtain ⟨p2, hp2, hall⟩ := bind_ok_ex hall
    obtain ⟨p3, hp3, hall⟩ := bind_ok_ex hall
    obtain ⟨p4, hp4, _⟩ := bind_ok_ex hall
    rcases hi with rfl | rfl | rfl | rfl
    · rw [configProgram_mode3 d 1 h3] at hp1; cases hp1
    · rw [configProgram_mode3 d 2 h3] at hp2; cases hp2
    · rw [configProgram_mode3 d 3 h3] at hp3; cases hp3
    · rw [configProgram_mode3 d 4 h3] at hp4; cases hp4

/-- A successful `GET /config` reports the stored `RUNNING_PROGRAM`
setting floor-divided by 8. -/
theorem config_running_program (weekdays : List (String × Int)) (d : Device)
    (v : Int) (hs : d.settings runningProgramKey = .int v)
    (cfg : ConfigResponse) (h : get_config weekdays d = .ok cfg) :
    cfg.running_program = v.fdiv 8 := by
  unfold get_config at h
  obtain ⟨p1, hp1, h⟩ := bind_ok_ex h
  obtain ⟨p2, hp2, h⟩ := bind_ok_ex h
  obtain ⟨p3, hp3, h⟩ := bind_ok_ex h
  obtain ⟨p4, hp4, h⟩ := bind_ok_ex h
  rw [hs] at h
  obtain ⟨rp, hrp, h⟩ := bind_ok_ex h
  obtain ⟨th, hth, h⟩ := bind_ok_ex h
  obtain ⟨tm, htm, h⟩ := bind_ok_ex h
  obtain ⟨tw, htw, h⟩ := bind_ok_ex h
  obtain ⟨tdom, htdom, h⟩ := bind_ok_ex h
  obtain ⟨tmon, htmon, h⟩ := bind_ok_ex h
  obtain ⟨ty, hty, h⟩ := bind_ok_ex h
  obtain ⟨tdst, htdst, h⟩ := bind_ok_ex h
  simp [pyIntOf] at hrp
  simp [Pure.pure, Except.pure] at h
  rw [← h, ← hrp]

/-- C1: The claim says an out-of-range `/control` field yields HTTP 400
with a field-specific message and 500 is reserved for communication
failures.  In the code every `HTTPException(400, ...)` raised inside the
`try` block is caught by `except Exception as e` (FastAPI's
`HTTPException` inherits from `Exception`) and re-raised as a 500: with no
device failure at all, `{speed: 100}` raises the 400 validation exception
inside the handler but the endpoint answers 500. -/
theorem c1_validation_failure_returns_500 :
    control_pump_run { speed := some 100 }
      = ([], some (.http 400 "Speed must be between 450 and 3450 RPM"))
    ∧ (control_pump { speed := some 100 }).1.status = 500
    ∧ (control_pump { speed := some 100 }).2 = [] := by
  decide

/-- C2: Boundary speeds 450 and 3450 are accepted with exactly one device
write and a success response; `{speed: 449}` raises the 400 validation
exception with no write, but the endpoint answers 500 (catch-all rewrap),
not the claimed 400. -/
theorem c2_speed_boundaries :
    control_pump { speed := some 450 }
      = (⟨200, "success"⟩, [⟨"trpm", .int 450⟩])
    ∧ control_pump { speed := some 3450 }
      = (⟨200, "success"⟩, [⟨"trpm", .int 3450⟩])
    ∧ control_pump_run { speed := some 449 }
      = ([], some (.http 400 "Speed must be between 450 and 3450 RPM"))
    ∧ (control_pump { speed := some 449 }).1.status = 500 := by
  decide

/-- C3: `POST /program {program_id: 9}` is rejected before any device
write — the handler raises `HTTPException(400, "Program ID must be
between 1 and 8")` — but the catch-all turns the response into a 500, not
the claimed 400. -/
theorem c3_program_id_9_rejected_500 :
    control_program_run { program_id := 9, rpm := some 1000 } device0
      = ([], some (.http 400 "Program ID must be between 1 and 8"))
    ∧ (control_program { program_id := 9, rpm := some 1000 } device0).1.status = 500
    ∧ (control_program { program_id := 9, rpm := some 1000 } device0).2 = [] := by
  decide

/-- C4: With a valid program_id and the pump's mode truthy (running), the
handler raises `HTTPException(400, "Pump is currently running, cannot
modify program")` and issues no program-slot write; the catch-all converts
the response to a 500, so the claimed 400 status never reaches the
client. -/
theorem c4_running_pump_blocks_program_writes (c : ProgramControl)
    (d : Device) (h1 : 1 ≤ c.program_id) (h2 : c.program_id ≤ 8)
    (hrun : d.pumpMode ≠ 0) :
    control_program_run c d
      = ([], some (.http 400 "Pump is currently running, cannot modify program"))
    ∧ (control_program c d).1.status = 500
    ∧ (control_program c d).2 = [] := by
  have hA : 1 ≤ c.program_id ∧ c.program_id ≤ 8 := ⟨h1, h2⟩
  have hr : control_program_run c d
      = ([], some (.http 400 "Pump is currently running, cannot modify program")) := by
    simp [control_program_run, hA, hrun]
  refine ⟨hr, ?_, ?_⟩ <;> simp [control_program, hr]

/-- Closed instance of C4: program 1, rpm 1000, pump mode 1. -/
theorem c4_running_pump_blocks_program_writes_witness :
    control_program_run { program_id := 1, rpm := some 1000 } runningDevice
      = ([], some (.http 400 "Pump is currently running, cannot modify program"))
    ∧ (control_program { program_id := 1, rpm := some 1000 } runningDevice).1.status = 500
    ∧ (control_program { program_id := 1, rpm := some 1000 } runningDevice).2 = [] :=
  c4_running_pump_blocks_program_writes
    { program_id := 1, rpm := some 1000 } runningDevice
    (by decide) (by decide) (by decide)

/-- C7: `/control` fields are processed in the fixed source order
`control_actions` (the parsed request record carries no JSON field order):
the issued writes are exactly those of the maximal prefix of blocks that do
not fail, in order and never undone, and the raised exception is the first
failing block's, with no write from the failing block or any later one. -/
theorem c7_control_fixed_order_prefix (c : PumpControl) :
    control_pump_run c =
      (((control_actions.takeWhile (fun a => !actFails c a)).map
          (fun a => actWrites c a)).flatten,
       (control_actions.find? (fun a => actFails c a)).bind
         (fun a => actExc c a)) :=
  runActs_spec c control_actions

/-- C8: The claim says the `selected_program` rejection message states the
admissible range 1 to 8.  The guard indeed accepts 1..8 (value 8 is
written and succeeds), but the message text of the source says "between 1
and 4", and the response status is 500, not a client 400. -/
theorem c8_selected_program_wrong_message :
    control_pump { selected_program := some 8 }
      = (⟨200, "success"⟩, [⟨"selected_program", .int 8⟩])
    ∧ control_pump_run { selected_program := some 9 }
      = ([], some (.http 400 "Selected program must be between 1 and 4"))
    ∧ (control_pump { selected_program := some 9 }).1.status = 500 := by
  decide

/-- C5: A successful `GET /status` reports `state` true exactly when the
device run register (default 0) equals `0x0A`, and takes `speed`, `watts`
and `time` from the corresponding status registers. -/
theorem c5_status_fields (pumpModes : List (String × Int)) (d : Device)
    (r : StatusResponse) (h : get_status pumpModes d = .ok r) :
    (r.state = true ↔ d.statusRun.getD 0 = 0x0A)
    ∧ r.speed = d.statusRpm.getD 0
    ∧ r.watts = d.statusWatts.getD 0
    ∧ ∀ a b, pyIndex (d.statusTime.getD [0, 0]) 0 = .ok a →
        pyIndex (d.statusTime.getD [0, 0]) 1 = .ok b → r.time = [a, b] := by
  simp only [get_status] at h
  obtain ⟨t0, ht0, h⟩ := bind_ok_ex h
  obtain ⟨t1, ht1, h⟩ := bind_ok_ex h
  simp only [Pure.pure, Except.pure, Except.ok.injEq] at h
  subst h
  refine ⟨by simp, rfl, rfl, ?_⟩
  intro a b ha hb
  rw [ht0] at ha
  rw [ht1] at hb
  injection ha with ha
  injection hb with hb
  rw [← ha, ← hb]

/-- Witness for C5 at a concrete device: run register `0x0A`, rpm 2400,
watts 800, time 12:30. -/
theorem c5_status_fields_witness :
    get_status [] device0
      = .ok ⟨true, 2400, 800, "UNKNOWN", [12, 30]⟩
    ∧ ((true = true ↔ device0.statusRun.getD 0 = 0x0A)
       ∧ (2400 : Int) = device0.statusRpm.getD 0
       ∧ (800 : Int) = device0.statusWatts.getD 0
       ∧ ([12, 30] : List Int) = [12, 30]) := by
  have hok : get_status [] device0
      = .ok ⟨true, 2400, 800, "UNKNOWN", [12, 30]⟩ := rfl
  have h := c5_status_fields [] device0 ⟨true, 2400, 800, "UNKNOWN", [12, 30]⟩ hok
  exact ⟨hok, h.1, h.2.1, h.2.2.1,
    h.2.2.2 12 30 rfl rfl⟩

/-- C6: A `/control` request with `running_program := n` (1 ≤ n ≤ 4)
succeeds with the single device write `n * 8` to the `RUNNING_PROGRAM`
setting, and a subsequent successful `GET /config` on the written device
reports `running_program = n` (the stored value floor-divided by 8):
round-trip identity. -/
theorem c6_running_program_roundtrip (n : Int) (d : Device)
    (weekdays : List (String × Int)) (h1 : 1 ≤ n) (h2 : n ≤ 4) :
    control_pump_run { running_program := some n }
      = ([⟨runningProgramKey, .int (n * 8)⟩], none)
    ∧ (control_pump { running_program := some n }).1.status = 200
    ∧ (applyWrites d (control_pump { running_program := some n }).2).settings
        runningProgramKey = .int (n * 8)
    ∧ ∀ cfg, get_config weekdays
          (applyWrites d (control_pump { running_program := some n }).2)
          = .ok cfg →
        cfg.running_program = n := by
  have hA : 1 ≤ n ∧ n ≤ 4 := ⟨h1, h2⟩
  have hr : control_pump_run { running_program := some n }
      = ([⟨runningProgramKey, .int (n * 8)⟩], none) := by
    simp [control_pump_run, runActs, control_actions, state_act, speed_act,
      ramp_act, celsius_act, fahrenheit_act, contrast_act, address_act,
      id_act, ampm_act, max_rpm_act, min_rpm_act, quick_rpm_act,
      quick_timer_act, prime_enable_act, prime_max_time_act,
      prime_sensitivity_act, prime_delay_act, antifreeze_enable_act,
      antifreeze_rpm_act, antifreeze_temp_act, svrs_restart_enable_act,
      svrs_restart_timer_act, time_out_timer_act, running_program_act,
      selected_program_act, range_act, bool_act, timer_act, hA,
      runningProgramKey]
  have hcp : control_pump { running_program := some n }
      = (⟨200, "success"⟩, [⟨runningProgramKey, .int (n * 8)⟩]) := by
    simp [control_pump, hr]
  have hset : (applyWrites d (control_pump { running_program := some n }).2).settings
      runningProgramKey = .int (n * 8) := by
    rw [hcp]
    simp [applyWrites, applyWrite]
  refine ⟨hr, by rw [hcp], hset, ?_⟩
  intro cfg hcfg
  have hv := config_running_program weekdays _ (n * 8) hset cfg hcfg
  rw [hv, Int.mul_fdiv_cancel n (by norm_num)]

/-- Witness for C6 at n = 2 on `device0`: the stored value is 16 and a
successful config read reports 2. -/
theorem c6_running_program_roundtrip_witness :
    control_pump_run { running_program := some 2 }
      = ([⟨runningProgramKey, .int 16⟩], none)
    ∧ (control_pump { running_program := some 2 }).1.status = 200
    ∧ (applyWrites device0 (control_pump { running_program := some 2 }).2).settings
        runningProgramKey = .int 16
    ∧ ∀ cfg, get_config []
          (applyWrites device0 (control_pump { running_program := some 2 }).2)
          = .ok cfg →
        cfg.running_program = 2 := by
  have h := c6_running_program_roundtrip 2 device0 [] (by decide) (by decide)
  norm_num at h
  exact h

/-- C10: While the pump is idle, `POST /program` accepts mode `DISABLED`
and writes mode value 3 into the slot; the `GET /config` mode-label list
has only the three labels `MANUAL`, `EGG_TIMER`, `SCHEDULE`, so after that
edit (and, generally, whenever one of device programs 1-4 stores mode 3)
the config read raises `IndexError` and the endpoint answers 500. -/
theorem c10_disabled_mode_breaks_config (d : Device)
    (weekdays : List (String × Int)) (i : Int)
    (h1 : 1 ≤ i) (h2 : i ≤ 4) (hrun : d.pumpMode = 0) :
    control_program_run { program_id := i, mode := some "DISABLED" } d
      = ([⟨i, "mode", .int 3⟩], none)
    ∧ (control_program { program_id := i, mode := some "DISABLED" } d).1.status = 200
    ∧ ((applyProgWrites d
          (control_program { program_id := i, mode := some "DISABLED" } d).2).programs
        i).mode = 3
    ∧ config_status weekdays
        (applyProgWrites d
          (control_program { program_id := i, mode := some "DISABLED" } d).2) = 500
    ∧ ∀ d2 : Device, (d2.programs i).mode = 3 →
        config_status weekdays d2 = 500 := by
  have hA : 1 ≤ i ∧ i ≤ 8 := ⟨h1, by omega⟩
  have hma : prog_mode_act { program_id := i, mode := some "DISABLED" }
      = .ok [⟨i, "mode", PyVal.int 3⟩] := rfl
  have hr : control_program_run { program_id := i, mode := some "DISABLED" } d
      = ([⟨i, "mode", .int 3⟩], none) := by
    simp [control_program_run, hA, hrun, runActs, prog_actions, hma,
      prog_rpm_act, prog_schedule_start_act, prog_schedule_end_act,
      prog_egg_timer_act]
  have hcp : control_program { program_id := i, mode := some "DISABLED" } d
      = (⟨200, "success"⟩, [⟨i, "mode", .int 3⟩]) := by
    simp [control_program, hr]
  have hm3 : ((applyProgWrites d [⟨i, "mode", .int 3⟩]).programs i).mode = 3 := by
    simp [applyProgWrites, applyProgWrite, updateSlot]
  refine ⟨hr, by rw [hcp], ?_, ?_, ?_⟩
  · rw [hcp]
    exact hm3
  · rw [hcp]
    exact config_500_of_mode3 weekdays _ i h1 h2 hm3
  · intro d2 hd2
    exact config_500_of_mode3 weekdays d2 i h1 h2 hd2

/-- Witness for C10 at program 2 on the idle `device0`. -/
theorem c10_disabled_mode_breaks_config_witness :
    control_program_run { program_id := 2, mode := some "DISABLED" } device0
      = ([⟨2, "mode", .int 3⟩], none)
    ∧ (control_program { program_id := 2, mode := some "DISABLED" } device0).1.status = 200
    ∧ ((applyProgWrites device0
          (control_program { program_id := 2, mode := some "DISABLED" } device0).2).programs
        2).mode = 3
    ∧ config_status []
        (applyProgWrites device0
          (control_program { program_id := 2, mode := some "DISABLED" } device0).2) = 500
    ∧ ∀ d2 : Device, (d2.programs 2).mode = 3 →
        config_status [] d2 = 500 :=
  c10_disabled_mode_breaks_config device0 [] 2 (by decide) (by decide) (by decide)

/-- On a one-element list the chained timer comparison raises `IndexError`
only when the sole element passes the hours check; otherwise the chain
short-circuits to false before `l[1]` is evaluated. -/
theorem hm_cond_single (a : Int) :
    hm_cond [a] = if 0 ≤ a ∧ a ≤ 9 then .error .indexError else .ok false := by
  by_cases ha : 0 ≤ a ∧ a ≤ 9
  · simp [hm_cond, pyIndex, ha, Bind.bind, Except.bind]
  · simp [hm_cond, pyIndex, ha, Bind.bind, Except.bind, Pure.pure, Except.pure]

/-- Evaluation of `/control` when only `quick_timer` is present. -/
theorem control_pump_run_quick_timer (l : List Int) :
    control_pump_run { quick_timer := some l }
      = (match hm_cond l with
         | .error e => ([], some e)
         | .ok true => ([⟨"quick_timer", .list l⟩], none)
         | .ok false =>
             ([], some (.http 400 "Quick timer hours 0-9, minutes 0-59"))) := by
  cases h : hm_cond l with
  | error e =>
    simp [control_pump_run, runActs, control_actions, state_act, speed_act,
      ramp_act, celsius_act, fahrenheit_act, contrast_act, address_act,
      id_act, ampm_act, max_rpm_act, min_rpm_act, quick_rpm_act,
      quick_timer_act, prime_enable_act, prime_max_time_act,
      prime_sensitivity_act, prime_delay_act, antifreeze_enable_act,
      antifreeze_rpm_act, antifreeze_temp_act, svrs_restart_enable_act,
      svrs_restart_timer_act, time_out_timer_act, running_program_act,
      selected_program_act, range_act, bool_act, timer_act, h]
  | ok b =>
    cases b <;>
      simp [control_pump_run, runActs, control_actions, state_act, speed_act,
        ramp_act, celsius_act, fahrenheit_act, contrast_act, address_act,
        id_act, ampm_act, max_rpm_act, min_rpm_act, quick_rpm_act,
        quick_timer_act, prime_enable_act, prime_max_time_act,
        prime_sensitivity_act, prime_delay_act, antifreeze_enable_act,
        antifreeze_rpm_act, antifreeze_temp_act, svrs_restart_enable_act,
        svrs_restart_timer_act, time_out_timer_act, running_program_act,
        selected_program_act, range_act, bool_act, timer_act, h]

/-- Evaluation of `/control` when only `time_out_timer` is present. -/
theorem control_pump_run_time_out_timer (l : List Int) :
    control_pump_run { time_out_timer := some l }
      = (match hm_cond l with
         | .error e => ([], some e)
         | .ok true => ([⟨"time_out_timer", .list l⟩], none)
         | .ok false =>
             ([], some (.http 400 "Time out timer hours 0-9, minutes 0-59"))) := by
  cases h : hm_cond l with
  | error e =>
    simp [control_pump_run, runActs, control_actions, state_act, speed_act,
      ramp_act, celsius_act, fahrenheit_act, contrast_act, address_act,
      id_act, ampm_act, max_rpm_act, min_rpm_act, quick_rpm_act,
      quick_timer_act, prime_enable_act, prime_max_time_act,
      prime_sensitivity_act, prime_delay_act, antifreeze_enable_act,
      antifreeze_rpm_act, antifreeze_temp_act, svrs_restart_enable_act,
      svrs_restart_timer_act, time_out_timer_act, running_program_act,
      selected_program_act, range_act, bool_act, timer_act, h]
  | ok b =>
    cases b <;>
      simp [control_pump_run, runActs, control_actions, state_act, speed_act,
        ramp_act, celsius_act, fahrenheit_act, contrast_act, address_act,
        id_act, ampm_act, max_rpm_act, min_rpm_act, quick_rpm_act,
        quick_timer_act, prime_enable_act, prime_max_time_act,
        prime_sensitivity_act, prime_delay_act, antifreeze_enable_act,
        antifreeze_rpm_act, antifreeze_temp_act, svrs_restart_enable_act,
        svrs_restart_timer_act, time_out_timer_act, running_program_act,
        selected_program_act, range_act, bool_act, timer_act, h]

/-- C9 counterexample: `{quick_timer: [100]}` has fewer than two elements,
yet the handler does not raise `IndexError`: the chained comparison
short-circuits after `l[0]` fails the hours check and the block raises the
range-validation `HTTPException` instead. -/
theorem c9_one_element_list_not_indexerror :
    control_pump_run { quick_timer := some [100] }
      = ([], some (.http 400 "Quick timer hours 0-9, minutes 0-59"))
    ∧ (control_pump_run { quick_timer := some [100] }).2 ≠ some PExc.indexError := by
  decide

/-- C9 amended: `quick_timer` and `time_out_timer` lists are indexed with
no length check, and a short list always ends in a 500; the escaping
exception is `IndexError` exactly when the list is empty or its sole
element passes the hours range 0-9 (otherwise the 400 range
`HTTPException` is raised, which the catch-all also rewraps as 500).  The
`/program` list fields check the length first: a short `schedule_start`
yields the 400 validation exception, never `IndexError`. -/
theorem c9_short_timer_lists_500 (l : List Int) (h : l.length < 2) :
    (control_pump { quick_timer := some l }).1.status = 500
    ∧ (control_pump { time_out_timer := some l }).1.status = 500
    ∧ ((control_pump_run { quick_timer := some l }).2 = some PExc.indexError
        ↔ l = [] ∨ ∃ a, l = [a] ∧ 0 ≤ a ∧ a ≤ 9)
    ∧ ((control_pump_run { time_out_timer := some l }).2 = some PExc.indexError
        ↔ l = [] ∨ ∃ a, l = [a] ∧ 0 ≤ a ∧ a ≤ 9)
    ∧ (control_program_run { program_id := 1, schedule_start := some l } device0).2
      = some (.http 400 "Schedule start must have hours 0-23, minutes 0-59") := by
  rcases l with _ | ⟨a, _ | ⟨b, t⟩⟩
  · have hq0 : (control_pump_run { quick_timer := some ([] : List Int) }).2
        = some PExc.indexError := by decide
    have ht0 : (control_pump_run { time_out_timer := some ([] : List Int) }).2
        = some PExc.indexError := by decide
    refine ⟨by decide, by decide, ?_, ?_, by decide⟩
    · rw [hq0]
      simp
    · rw [ht0]
      simp
  · have hq := control_pump_run_quick_timer [a]
    have ht := control_pump_run_time_out_timer [a]
    rw [hm_cond_single] at hq ht
    have hs : control_program_run { program_id := 1, schedule_start := some [a] }
        device0
        = ([], some (.http 400 "Schedule start must have hours 0-23, minutes 0-59")) := by
      have hsc : sched_cond [a] = false := rfl
      simp [control_program_run, device0, runActs, prog_actions,
        prog_mode_act, prog_rpm_act, prog_schedule_start_act,
        prog_schedule_end_act, prog_egg_timer_act, hsc]
    by_cases ha : 0 ≤ a ∧ a ≤ 9
    · rw [if_pos ha] at hq ht
      refine ⟨by simp [control_pump, hq], by simp [control_pump, ht], ?_, ?_,
        by rw [hs]⟩
      · rw [hq]
        exact iff_of_true rfl (Or.inr ⟨a, rfl, ha.1, ha.2⟩)
      · rw [ht]
        exact iff_of_true rfl (Or.inr ⟨a, rfl, ha.1, ha.2⟩)
    · rw [if_neg ha] at hq ht
      refine ⟨by simp [control_pump, hq], by simp [control_pump, ht], ?_, ?_,
        by rw [hs]⟩
      · rw [hq]
        constructor
        · intro hfalse
          simp at hfalse
        · rintro (h0 | ⟨b, hb, hb1, hb2⟩)
          · simp at h0
          · injection hb with hb _
            exact absurd ⟨hb ▸ hb1, hb ▸ hb2⟩ ha
      · rw [ht]
        constructor
        · intro hfalse
          simp at hfalse
        · rintro (h0 | ⟨b, hb, hb1, hb2⟩)
          · simp at h0
          · injection hb with hb _
            exact absurd ⟨hb ▸ hb1, hb ▸ hb2⟩ ha
  · exfalso
    simp at h
    omega

/-- Witness for C9 (amended) at the empty list. -/
theorem c9_short_timer_lists_500_witness :
    (control_pump { quick_timer := some ([] : List Int) }).1.status = 500
    ∧ (control_pump { time_out_timer := some ([] : List Int) }).1.status = 500
    ∧ ((control_pump_run { quick_timer := some ([] : List Int) }).2
          = some PExc.indexError
        ↔ ([] : List Int) = [] ∨ ∃ a, ([] : List Int) = [a] ∧ 0 ≤ a ∧ a ≤ 9)
    ∧ ((control_pump_run { time_out_timer := some ([] : List Int) }).2
          = some PExc.indexError
        ↔ ([] : List Int) = [] ∨ ∃ a, ([] : List Int) = [a] ∧ 0 ≤ a ∧ a ≤ 9)
    ∧ (control_program_run { program_id := 1, schedule_start := some ([] : List Int) }
        device0).2
      = some (.http 400 "Schedule start must have hours 0-23, minutes 0-59") :=
  c9_short_timer_lists_500 [] (by decide)

end Pentair
